import Mathlib

/-!
# Verification of the metadata-enrichment engine (`scripts/enrich.py`)

Shallow embedding of the enrichment coordinator, the two source adapters
(OpenLibrary = Primary, Google Books = Secondary), the extraction helpers and
the rate-delay behaviour of `enrich.py`, together with proofs of the spec's
claims about them.

Conventions of the embedding:
* Python `Optional[str]` / `Optional[int]` become `Option String` / `Option Int`.
* Python truthiness (`if x:`) is modelled explicitly: `None`, `""`, `0`, `[]`
  and `{}` are falsy; the coordinator tests truthiness, never only null-ness.
* JSON values carried by provider responses are the inductive `JVal` below.
  JSON booleans and floats never occur in the fields `enrich.py` consults and
  are omitted from the model; duplicate keys do not occur in parsed objects.
* Network effects are abstracted: each `requests.get` call site receives an
  `HttpOutcome` from an `Env`, covering a parsed reply with its status code, a
  `requests.RequestException` (which includes timeouts) and a body that fails
  to parse as JSON (`response.json()` raises `requests.JSONDecodeError`, a
  subclass of `RequestException`, hence caught by the same handler).
* `time.sleep` and the adapter call sites are recorded in an event trace.
-/

set_option autoImplicit false

namespace BookCatalog

/-- A JSON value as `enrich.py` manipulates it: the result of
`response.json()`.  Numbers are integers (the consulted numeric fields,
`number_of_pages` / `pageCount`, carry integers). -/
inductive JVal where
  | jnull
  | jstr (s : String)
  | jnum (n : Int)
  | jarr (xs : List JVal)
  | jobj (fields : List (String × JVal))
  deriving Repr

namespace JVal

/-- Python truthiness of a JSON value: `None`, `""`, `0`, `[]`, `{}` are falsy. -/
def truthy : JVal → Bool
  | .jnull => false
  | .jstr s => !s.isEmpty
  | .jnum n => n != 0
  | .jarr xs => !xs.isEmpty
  | .jobj fs => !fs.isEmpty

/-- Association lookup in an object's field list (parsed dicts have unique
keys, so first match is the match).  On a non-object Python's `.get` raises
`AttributeError`; such runs never complete, marked here by `none`. -/
def objGet : List (String × JVal) → String → Option JVal
  | [], _ => none
  | (k, v) :: rest, key => if k = key then some v else objGet rest key

/-- Embedding of `data.get(key)`: `none` both when the key is absent and when the value is
not an object. -/
def get : JVal → String → Option JVal
  | .jobj fs, key => objGet fs key
  | _, _ => none

/-- Embedding of `data.get(key, default)`. -/
def getD (j : JVal) (key : String) (dflt : JVal) : JVal :=
  match j.get key with
  | some v => v
  | none => dflt

/-- Indexing `x[0]` as Python evaluates it on the shapes that do not raise: head of a
list, first character of a non-empty string.  The remaining truthy shapes
(numbers, dicts) make Python raise `TypeError`/`KeyError`, so those runs never
complete; `none` marks them. -/
def index0 : JVal → Option JVal
  | .jarr (x :: _) => some x
  | .jstr s => if s.isEmpty then none else some (.jstr (s.take 1))
  | _ => none

/-- Project a string value.  Provider responses carry strings in the fields
this is applied to; a non-string there would flow through Python's duck
typing, a case no run considered in this development produces. -/
def asStr : JVal → Option String
  | .jstr s => some s
  | _ => none

/-- Project an integer value, same caveat as `asStr`. -/
def asInt : JVal → Option Int
  | .jnum n => some n
  | _ => none

/-- Python `str()` of a JSON value, as used by `str.format` when splicing a
cover id into the cover-URL template (quote escaping inside nested `repr` is
elided; cover ids are integers in every run considered here). -/
def pyStr : JVal → String
  | .jnull => "None"
  | .jstr s => s
  | .jnum n => toString n
  | .jarr _ => "[...]"
  | .jobj _ => "{...}"

end JVal

/-- Truthiness of a nullable string (`None` and `""` are falsy). -/
def pyFalsyStr : Option String → Bool
  | none => true
  | some s => s.isEmpty

/-- Truthiness of a nullable integer (`None` and `0` are falsy). -/
def pyFalsyInt : Option Int → Bool
  | none => true
  | some n => n == 0

/-- Truthiness of a nullable JSON record (`None`, `{}`, `[]`, … are falsy);
this is what `if ol_data:` / `if google_data:` test. -/
def pyTruthyRec : Option JVal → Bool
  | none => false
  | some v => v.truthy

/-- Python `a or b` on nullable strings: first truthy operand, else `b`. -/
def pyOr (a b : Option String) : Option String :=
  if pyFalsyStr a then b else a

/-- The fields of `models.Book` that `enrich_book` reads or writes.  All other
columns (reading status, notes, themes, …) are inert to the enrichment engine.
Types follow the dataclass: `title: str = ""`, the rest `Optional`. -/
structure Book where
  title : String
  author : Option String
  isbn : Option String
  isbn13 : Option String
  openlibrary_key : Option String
  publisher : Option String
  page_count : Option Int
  cover_url : Option String
  summary : Option String
  deriving Repr, DecidableEq

/-- Outcome of one `requests.get` at an adapter call site. -/
inductive HttpOutcome where
  /-- The server replied with `status` and a body that parsed as JSON. -/
  | resp (status : Nat) (body : JVal)
  /-- A `requests.RequestException`: connection failure, timeout, …. -/
  | reqError
  /-- Body that fails JSON parsing: `response.json()` raises
  `requests.JSONDecodeError ⊆ RequestException`, caught by the same handler. -/
  | parseError
  deriving Repr

/-- Adapter `fetch_openlibrary_by_isbn` (enrich.py:38): 200 → parsed body, 404 → clean
`None`, any other status logged and `None`, request error logged and `None`.
The ISBN argument only shapes the URL, so the embedding takes the outcome. -/
def fetch_openlibrary_by_isbn : HttpOutcome → Option JVal
  | .resp 200 body => some body
  | .resp _ _ => none
  | .reqError => none
  | .parseError => none

/-- Adapter `fetch_openlibrary_by_title_author` (enrich.py:56): on 200, first element
of the `docs` list when that list is truthy; otherwise `None`.  The title and
author arguments only shape the query parameters. -/
def fetch_openlibrary_by_title_author : HttpOutcome → Option JVal
  | .resp 200 body =>
      match body.get "docs" with
      | some docs => if docs.truthy then docs.index0 else none
      | none => none
  | .resp _ _ => none
  | .reqError => none
  | .parseError => none

/-- Adapter `fetch_openlibrary_works` (enrich.py:75): 200 → parsed body, else `None`.
The works key only shapes the URL. -/
def fetch_openlibrary_works : HttpOutcome → Option JVal
  | .resp 200 body => some body
  | .resp _ _ => none
  | .reqError => none
  | .parseError => none

/-- Adapter `fetch_google_books` (enrich.py:89): builds the query with precedence
isbn > title+author > title, returning `None` with no HTTP request when none
is given; on 200 takes `items[0].get("volumeInfo", {})` when `items` is
truthy; all failures `None`. -/
def fetch_google_books (isbn : Option String) (title : String)
    (_author : Option String) (o : HttpOutcome) : Option JVal :=
  if pyFalsyStr isbn = false ∨ ¬title.isEmpty then
    match o with
    | .resp 200 body =>
        match body.get "items" with
        | some items =>
            if items.truthy then
              match items.index0 with
              | some (.jobj fs) => some ((JVal.jobj fs).getD "volumeInfo" (.jobj []))
              | _ => none
            else none
        | none => none
    | .resp _ _ => none
    | .reqError => none
    | .parseError => none
  else none

/-- Which provider a record came from, selecting the extraction rules. -/
inductive Source where
  | openlibrary
  | google
  deriving Repr, DecidableEq

/-- Helper `extract_description` (enrich.py:114): OpenLibrary descriptions are either
an object with a `value` field or a plain string; Google descriptions are a
direct field. -/
def extract_description (data : JVal) : Source → Option String
  | .openlibrary =>
      match data.get "description" with
      | some (.jobj fs) => (JVal.objGet fs "value").bind JVal.asStr
      | some (.jstr s) => some s
      | _ => none
  | .google => (data.get "description").bind JVal.asStr

/-- The fixed cover image URL template (enrich.py:30) applied to a cover id. -/
def coverUrlOf (coverId : JVal) : String :=
  "https://covers.openlibrary.org/b/id/" ++ coverId.pyStr ++ "-L.jpg"

/-- Strip the low-quality rendering hint and upgrade the zoom parameter of a
Google cover link (enrich.py:145). -/
def googleCoverOf (v : JVal) : Option String :=
  (v.asStr).map fun url => (url.replace "&edge=curl" "").replace "zoom=1" "zoom=2"

/-- Helper `extract_cover_url` (enrich.py:128): OpenLibrary — if the `covers` id list
is truthy, format its first element into the template (this branch returns
unconditionally); else a truthy singular `cover_i` id; Google — first present
key among `large`, `medium`, `thumbnail` in `imageLinks`, with the string
substitutions applied. -/
def extract_cover_url (data : JVal) : Source → Option String
  | .openlibrary =>
      let covers := data.getD "covers" (.jarr [])
      if covers.truthy then
        covers.index0.map coverUrlOf
      else
        match data.get "cover_i" with
        | some cid => if cid.truthy then some (coverUrlOf cid) else none
        | none => none
  | .google =>
      let links := data.getD "imageLinks" (.jobj [])
      match links.get "large" with
      | some v => googleCoverOf v
      | none =>
          match links.get "medium" with
          | some v => googleCoverOf v
          | none =>
              match links.get "thumbnail" with
              | some v => googleCoverOf v
              | none => none

/-! ## The enrichment coordinator (`enrich_book`, enrich.py:150) -/

/-- The constant `REQUEST_DELAY = 1.0` seconds between API calls (enrich.py:35). -/
def REQUEST_DELAY : Rat := 1

/-- The four adapter call sites of the coordinator. -/
inductive AdapterId where
  | olIsbn
  | olSearch
  | olWorks
  | google
  deriving Repr, DecidableEq

/-- One observable step of a coordinator run: an adapter call or a
`time.sleep`. -/
inductive Event where
  | call (a : AdapterId)
  | sleep (d : Rat)
  deriving Repr, DecidableEq

/-- Every adapter call in `enrich_book` is followed immediately by
`time.sleep(REQUEST_DELAY)` (enrich.py:179,185,200,206). -/
def callBlock (a : AdapterId) : List Event :=
  [.call a, .sleep REQUEST_DELAY]

/-- Number of adapter calls in a trace. -/
def numCalls : List Event → Nat
  | [] => 0
  | .call _ :: rest => numCalls rest + 1
  | .sleep _ :: rest => numCalls rest

/-- A trace is paced when every adapter call is immediately followed by a
sleep of exactly `REQUEST_DELAY` and nothing else occurs. -/
def paced : List Event → Bool
  | [] => true
  | .call _ :: .sleep d :: rest => d == REQUEST_DELAY && paced rest
  | _ => false

/-- Total time slept over a trace. -/
def totalSleep : List Event → Rat
  | [] => 0
  | .call _ :: rest => totalSleep rest
  | .sleep d :: rest => d + totalSleep rest

/-- The responses the four call sites would receive in one run. -/
structure Env where
  olIsbn : HttpOutcome
  olSearch : HttpOutcome
  olWorks : HttpOutcome
  google : HttpOutcome

/-- Need `needs_cover = force or not book.cover_url` (enrich.py:160). -/
def needs_cover (b : Book) (force : Bool) : Bool := force || pyFalsyStr b.cover_url

/-- Need `needs_summary = force or not book.summary` (enrich.py:161). -/
def needs_summary (b : Book) (force : Bool) : Bool := force || pyFalsyStr b.summary

/-- Need `needs_page_count = force or not book.page_count` (enrich.py:162). -/
def needs_page_count (b : Book) (force : Bool) : Bool := force || pyFalsyInt b.page_count

/-- Need `needs_publisher = force or not book.publisher` (enrich.py:163). -/
def needs_publisher (b : Book) (force : Bool) : Bool := force || pyFalsyStr b.publisher

/-- The work key embedded in a Primary record, checked under `if ol_data:`
(enrich.py:188): the direct-lookup shape first (`ol_data["works"][0].get("key")`
when the `works` list is truthy), else the search shape (`ol_data.get("key")`
when `key` is present). -/
def worksKeyOf (ol : Option JVal) : Option JVal :=
  if pyTruthyRec ol then
    match ol with
    | some d =>
        (match d.get "works" with
         | some w =>
             if w.truthy then
               w.index0.bind fun first =>
                 match first with
                 | .jobj fs => JVal.objGet fs "key"
                 | _ => none
             else d.get "key"
         | none => d.get "key")
    | none => none
  else none

/-- The records gathered by one run plus its call/sleep trace. -/
structure Gathered where
  ol : Option JVal
  olWorks : Option JVal
  google : Option JVal
  trace : List Event
  deriving Repr

/-- The gathering phase of `enrich_book` (enrich.py:169..206): resolve the
identifier (`isbn13 or isbn`), try Primary by ISBN, fall back to Primary
search when the record so far is falsy and a title exists, fetch the works
record when a truthy work key exists and summary is needed, and call the
Secondary whenever cover or summary is needed.  Each call is followed by the
rate delay. -/
def gather (book : Book) (force : Bool) (env : Env) : Gathered :=
  let isbn := pyOr book.isbn13 book.isbn
  let ol1 := if pyFalsyStr isbn = false then fetch_openlibrary_by_isbn env.olIsbn else none
  let t1 := if pyFalsyStr isbn = false then callBlock .olIsbn else []
  let ol := if pyTruthyRec ol1 = false ∧ ¬book.title.isEmpty then
      fetch_openlibrary_by_title_author env.olSearch
    else ol1
  let t2 := if pyTruthyRec ol1 = false ∧ ¬book.title.isEmpty then callBlock .olSearch else []
  let wk := worksKeyOf ol
  let olWorks := if pyTruthyRec wk ∧ needs_summary book force then
      fetch_openlibrary_works env.olWorks
    else none
  let t3 := if pyTruthyRec wk ∧ needs_summary book force then callBlock .olWorks else []
  let google := if needs_cover book force ∨ needs_summary book force then
      fetch_google_books isbn book.title book.author env.google
    else none
  let t4 := if needs_cover book force ∨ needs_summary book force then callBlock .google else []
  ⟨ol, olWorks, google, t1 ++ (t2 ++ (t3 ++ t4))⟩

/-- Keep only a truthy string (the coordinator writes a field only under
`if value:`). -/
def keepTruthy : Option String → Option String
  | none => none
  | some s => if s.isEmpty then none else some s

/-- Cover fusion (enrich.py:210..221): Primary extraction when the Primary
record is truthy, Secondary extraction when that result is falsy and the
Secondary record is truthy, written only when truthy. -/
def coverCandidate (nC : Bool) (ol g : Option JVal) : Option String :=
  if nC then
    let c := match ol with
      | some d => if d.truthy then extract_cover_url d .openlibrary else none
      | none => none
    let c := if pyFalsyStr c ∧ pyTruthyRec g then
        (match g with
         | some d => extract_cover_url d .google
         | none => none)
      else c
    keepTruthy c
  else none

/-- Summary fusion (enrich.py:224..236): Primary works record first, Secondary
when that result is falsy, written only when truthy. -/
def summaryCandidate (nS : Bool) (olW g : Option JVal) : Option String :=
  if nS then
    let s := match olW with
      | some w => if w.truthy then extract_description w .openlibrary else none
      | none => none
    let s := if pyFalsyStr s ∧ pyTruthyRec g then
        (match g with
         | some d => extract_description d .google
         | none => none)
      else s
    keepTruthy s
  else none

/-- Page-count fusion (enrich.py:239..249): the Primary branch is taken when
the Primary record and its `number_of_pages` are truthy, the Secondary branch
(`elif`) when the Secondary record and its `pageCount` are truthy. -/
def pageCandidate (nP : Bool) (ol g : Option JVal) : Option Int :=
  if nP then
    match ol with
    | some d =>
        if d.truthy ∧ (d.getD "number_of_pages" .jnull).truthy then
          (d.get "number_of_pages").bind JVal.asInt
        else
          (match g with
           | some e =>
               if e.truthy ∧ (e.getD "pageCount" .jnull).truthy then
                 (e.get "pageCount").bind JVal.asInt
               else none
           | none => none)
    | none =>
        match g with
        | some e =>
            if e.truthy ∧ (e.getD "pageCount" .jnull).truthy then
              (e.get "pageCount").bind JVal.asInt
            else none
        | none => none
  else none

/-- Publisher fusion (enrich.py:252..264): when the Primary record is truthy,
the first element of its `publishers` list (a string, or an object's `name`);
only when the Primary record is falsy (`elif`) the Secondary's `publisher`
field.  Written only when truthy. -/
def publisherCandidate (nPub : Bool) (ol g : Option JVal) : Option String :=
  if nPub then
    keepTruthy
      (if pyTruthyRec ol then
        (match ol with
         | some d =>
             let publishers := d.getD "publishers" (.jarr [])
             if publishers.truthy then
               match publishers.index0 with
               | some (.jstr s) => some s
               | some (.jobj fs) => (JVal.objGet fs "name").bind JVal.asStr
               | _ => none
             else none
         | none => none)
      else if pyTruthyRec g then
        (match g with
         | some d => (d.get "publisher").bind JVal.asStr
         | none => none)
      else none)
  else none

/-- OpenLibrary key memo (enrich.py:267..271): when the Primary record is
truthy and the book has no truthy stored key, the record's truthy `key`. -/
def keyCandidate (book : Book) (ol : Option JVal) : Option String :=
  if pyTruthyRec ol ∧ pyFalsyStr book.openlibrary_key then
    (match ol with
     | some d =>
         match d.get "key" with
         | some k => if k.truthy then k.asStr else none
         | none => none
     | none => none)
  else none

/-- Write a fused candidate over the stored field: a found (truthy) value
replaces the old one, otherwise the old value stays. -/
def overwriteWith {α : Type} (cand : Option α) (old : Option α) : Option α :=
  match cand with
  | some v => some v
  | none => old

/-- The book after the apply phase of `enrich_book` (enrich.py:208..272):
each needed field fused from the gathered records, unneeded or unfound fields
kept. -/
def applied (book : Book) (nC nS nP nPub : Bool) (ol olW g : Option JVal) : Book :=
  { book with
    cover_url := overwriteWith (coverCandidate nC ol g) book.cover_url
    summary := overwriteWith (summaryCandidate nS olW g) book.summary
    page_count := overwriteWith (pageCandidate nP ol g) book.page_count
    publisher := overwriteWith (publisherCandidate nPub ol g) book.publisher
    openlibrary_key := overwriteWith (keyCandidate book ol) book.openlibrary_key }

/-- Whether the apply phase found anything, i.e. the `updated` flag at the end
of `enrich_book`: true exactly when some (truthy) value was written. -/
def anyFound (book : Book) (nC nS nP nPub : Bool) (ol olW g : Option JVal) : Bool :=
  (coverCandidate nC ol g).isSome || (summaryCandidate nS olW g).isSome ||
  (pageCandidate nP ol g).isSome || (publisherCandidate nPub ol g).isSome ||
  (keyCandidate book ol).isSome

/-- Result of one `enrich_book` run: the in-memory book at exit, the returned
`updated` flag, whether `BookDB.update` was called (the store write,
enrich.py:274..275 — exactly when `updated`), and the call/sleep trace. -/
structure EnrichResult where
  book : Book
  updated : Bool
  saved : Bool
  trace : List Event
  deriving Repr

/-- Coordinator `enrich_book` (enrich.py:150): compute the four needs; when none holds
return `False` untouched with no calls; otherwise gather records, fuse fields,
and persist the book exactly when something was updated. -/
def enrich_book (book : Book) (force : Bool) (env : Env) : EnrichResult :=
  if needs_cover book force = false ∧ needs_summary book force = false ∧
     needs_page_count book force = false ∧ needs_publisher book force = false then
    ⟨book, false, false, []⟩
  else
    let gr := gather book force env
    let nC := needs_cover book force
    let nS := needs_summary book force
    let nP := needs_page_count book force
    let nPub := needs_publisher book force
    ⟨applied book nC nS nP nPub gr.ol gr.olWorks gr.google,
     anyFound book nC nS nP nPub gr.ol gr.olWorks gr.google,
     anyFound book nC nS nP nPub gr.ol gr.olWorks gr.google,
     gr.trace⟩

/-! ## Concrete fixtures used by witnesses and counterexamples -/

/-- A catalogued book with the enrichable fields and the stored key varied per
scenario; the identity and descriptive fields are fixed. -/
def mkBook (cov su : Option String) (pg : Option Int) (pub key : Option String) : Book :=
  { title := "Dune", author := some "Frank Herbert", isbn := none,
    isbn13 := some "9780441013593", openlibrary_key := key,
    publisher := pub, page_count := pg, cover_url := cov, summary := su }

/-- An environment in which every request raises a `RequestException`. -/
def envFail : Env := ⟨.reqError, .reqError, .reqError, .reqError⟩

/-! ## Helper lemmas -/

@[simp] theorem overwriteWith_none {α : Type} (old : Option α) :
    overwriteWith none old = old := rfl

@[simp] theorem overwriteWith_some {α : Type} (v : α) (old : Option α) :
    overwriteWith (some v) old = some v := rfl

@[simp] theorem coverCandidate_not_needed (ol g : Option JVal) :
    coverCandidate false ol g = none := rfl

@[simp] theorem summaryCandidate_not_needed (olW g : Option JVal) :
    summaryCandidate false olW g = none := rfl

@[simp] theorem pageCandidate_not_needed (ol g : Option JVal) :
    pageCandidate false ol g = none := rfl

@[simp] theorem publisherCandidate_not_needed (ol g : Option JVal) :
    publisherCandidate false ol g = none := rfl

theorem keyCandidate_of_truthy_key (b : Book) (ol : Option JVal)
    (h : pyFalsyStr b.openlibrary_key = false) : keyCandidate b ol = none := by
  simp [keyCandidate, h]

@[simp] theorem needs_cover_no_force (b : Book) :
    needs_cover b false = pyFalsyStr b.cover_url := by simp [needs_cover]

@[simp] theorem needs_summary_no_force (b : Book) :
    needs_summary b false = pyFalsyStr b.summary := by simp [needs_summary]

@[simp] theorem needs_page_count_no_force (b : Book) :
    needs_page_count b false = pyFalsyInt b.page_count := by simp [needs_page_count]

@[simp] theorem needs_publisher_no_force (b : Book) :
    needs_publisher b false = pyFalsyStr b.publisher := by simp [needs_publisher]

@[simp] theorem needs_cover_force (b : Book) : needs_cover b true = true := rfl

@[simp] theorem needs_summary_force (b : Book) : needs_summary b true = true := rfl

@[simp] theorem needs_page_count_force (b : Book) : needs_page_count b true = true := rfl

@[simp] theorem needs_publisher_force (b : Book) : needs_publisher b true = true := rfl

@[simp] theorem truthy_jnull : (JVal.jnull).truthy = false := rfl

@[simp] theorem truthy_jstr (s : String) : (JVal.jstr s).truthy = !s.isEmpty := rfl

@[simp] theorem truthy_jnum (n : Int) : (JVal.jnum n).truthy = (n != 0) := rfl

@[simp] theorem truthy_jarr (xs : List JVal) : (JVal.jarr xs).truthy = !xs.isEmpty := rfl

@[simp] theorem truthy_jobj (fs : List (String × JVal)) :
    (JVal.jobj fs).truthy = !fs.isEmpty := rfl

theorem numCalls_append : ∀ t1 t2 : List Event,
    numCalls (t1 ++ t2) = numCalls t1 + numCalls t2
  | [], t2 => by simp [numCalls]
  | .call a :: rest, t2 => by
      simp [numCalls, numCalls_append rest t2]; omega
  | .sleep d :: rest, t2 => by
      simp [numCalls, numCalls_append rest t2]

theorem paced_append : ∀ t1 t2 : List Event,
    paced t1 = true → paced t2 = true → paced (t1 ++ t2) = true
  | [], _, _, h2 => by simpa
  | .call a :: .sleep d :: rest, t2, h1, h2 => by
      simp [paced] at h1 ⊢
      exact ⟨h1.1, paced_append rest t2 h1.2 h2⟩
  | [.call a], _, h1, _ => by simp [paced] at h1
  | .call a :: .call a' :: rest, _, h1, _ => by simp [paced] at h1
  | .sleep d :: rest, _, h1, _ => by simp [paced] at h1

theorem totalSleep_paced : ∀ t : List Event,
    paced t = true → totalSleep t = (numCalls t : Rat) * REQUEST_DELAY
  | [], _ => by simp [totalSleep, numCalls]
  | .call a :: .sleep d :: rest, h => by
      simp [paced] at h
      obtain ⟨hd, hrest⟩ := h
      simp [totalSleep, numCalls, totalSleep_paced rest hrest, hd]
      ring
  | [.call a], h => by simp [paced] at h
  | .call a :: .call a' :: rest, h => by simp [paced] at h
  | .sleep d :: rest, h => by simp [paced] at h

theorem paced_block_append (c : Prop) [Decidable c] (a : AdapterId)
    (t : List Event) (ht : paced t = true) :
    paced ((if c then callBlock a else []) ++ t) = true := by
  split
  · exact paced_append _ _ (by simp [callBlock, paced]) ht
  · simpa

theorem gather_trace_paced (b : Book) (f : Bool) (env : Env) :
    paced (gather b f env).trace = true := by
  simp only [gather]
  exact paced_block_append _ _ _ (paced_block_append _ _ _
    (paced_block_append _ _ _ (by simpa using paced_block_append _ _ [] rfl)))

theorem enrich_trace_paced (b : Book) (f : Bool) (env : Env) :
    paced (enrich_book b f env).trace = true := by
  simp only [enrich_book]
  split
  · simp [paced]
  · exact gather_trace_paced b f env

/-! ## Claims -/

/-- C8: in every run of `enrich_book` the fixed rate delay is applied after
every adapter call — the trace is an alternation of calls each immediately
followed by `sleep REQUEST_DELAY`, whatever the call returned — hence a run
with `N` adapter calls sleeps at least `(N - 1) * REQUEST_DELAY`. -/
theorem rate_delay_after_every_call (b : Book) (force : Bool) (env : Env) :
    paced (enrich_book b force env).trace = true ∧
    ((numCalls (enrich_book b force env).trace : Rat) - 1) * REQUEST_DELAY ≤
      totalSleep (enrich_book b force env).trace := by
  refine ⟨enrich_trace_paced b force env, ?_⟩
  rw [totalSleep_paced _ (enrich_trace_paced b force env)]
  have h0 : (0 : Rat) ≤ (numCalls (enrich_book b force env).trace : Rat) := by positivity
  simp only [REQUEST_DELAY]
  linarith

/-- C9: there is a run of `enrich_book` that returns `True` and writes to the
store although no enrichable field changed: a Primary record carrying only a
`key`, met by a book with a null `openlibrary_key`, makes setting the key
count as an update. -/
theorem key_only_update_persists :
    (enrich_book (mkBook (some "c") (some "s") (some 412) none none) false
        ⟨.resp 200 (.jobj [("key", .jstr "/books/OL1M")]), .reqError, .reqError,
         .reqError⟩).updated = true ∧
    (enrich_book (mkBook (some "c") (some "s") (some 412) none none) false
        ⟨.resp 200 (.jobj [("key", .jstr "/books/OL1M")]), .reqError, .reqError,
         .reqError⟩).saved = true ∧
    (enrich_book (mkBook (some "c") (some "s") (some 412) none none) false
        ⟨.resp 200 (.jobj [("key", .jstr "/books/OL1M")]), .reqError, .reqError,
         .reqError⟩).book =
      mkBook (some "c") (some "s") (some 412) none (some "/books/OL1M") := by
  refine ⟨rfl, rfl, ?_⟩
  decide

/-- C4 counterexample: a book whose four enrichable fields are all non-null —
but whose summary is the empty string — still triggers three adapter calls
with `force=false`, because `enrich.py` tests truthiness (`not book.summary`),
not null-ness.  The claim promised zero external lookup calls. -/
theorem complete_nonnull_book_still_calls :
    (mkBook (some "c") (some "") (some 412) (some "Ace") (some "/k")).cover_url.isSome = true ∧
    (mkBook (some "c") (some "") (some 412) (some "Ace") (some "/k")).summary.isSome = true ∧
    (mkBook (some "c") (some "") (some 412) (some "Ace") (some "/k")).page_count.isSome = true ∧
    (mkBook (some "c") (some "") (some 412) (some "Ace") (some "/k")).publisher.isSome = true ∧
    numCalls (enrich_book (mkBook (some "c") (some "") (some 412) (some "Ace") (some "/k"))
        false envFail).trace = 3 := by
  decide

/-- C4 (amended): for every book whose four enrichable fields are all truthy
(non-null and non-empty / non-zero), `enrich_book` with `force=false` performs
zero adapter calls, leaves the book and the store unchanged, and returns
`False`. -/
theorem complete_truthy_book_noop (b : Book) (env : Env)
    (h1 : pyFalsyStr b.cover_url = false) (h2 : pyFalsyStr b.summary = false)
    (h3 : pyFalsyInt b.page_count = false) (h4 : pyFalsyStr b.publisher = false) :
    enrich_book b false env = ⟨b, false, false, []⟩ := by
  simp [enrich_book, h1, h2, h3, h4]

/-- Witness for `complete_truthy_book_noop` at a concrete complete book. -/
theorem complete_truthy_book_noop_witness :
    pyFalsyStr (mkBook (some "c") (some "s") (some 412) (some "Ace") (some "/k")).cover_url = false ∧
    enrich_book (mkBook (some "c") (some "s") (some 412) (some "Ace") (some "/k")) false envFail =
      ⟨mkBook (some "c") (some "s") (some 412) (some "Ace") (some "/k"), false, false, []⟩ :=
  ⟨by decide,
   complete_truthy_book_noop _ envFail (by decide) (by decide) (by decide) (by decide)⟩

/-- An environment whose Primary identity lookup succeeds with a record
carrying cover id 42 and a key, all other requests failing. -/
def envCovers42 : Env :=
  ⟨.resp 200 (.jobj [("covers", .jarr [.jnum 42]), ("key", .jstr "/books/OL1M")]),
   .reqError, .reqError, .reqError⟩

/-- C1 counterexample: a non-null `cover_url` — the empty string — is
overwritten with `force=false`, because `enrich.py` fills every falsy field,
not only null ones.  The claim promised non-null fields keep their value. -/
theorem nonnull_empty_cover_overwritten :
    (mkBook (some "") (some "s") (some 412) (some "Ace") (some "/k")).cover_url = some "" ∧
    (enrich_book (mkBook (some "") (some "s") (some 412) (some "Ace") (some "/k"))
        false envCovers42).book.cover_url =
      some "https://covers.openlibrary.org/b/id/42-L.jpg" ∧
    (enrich_book (mkBook (some "") (some "s") (some 412) (some "Ace") (some "/k"))
        false envCovers42).book.cover_url ≠
      (mkBook (some "") (some "s") (some 412) (some "Ace") (some "/k")).cover_url := by
  refine ⟨rfl, by decide, by decide⟩

/-- C1 (amended): with `force=false` every truthy (non-null, non-empty /
non-zero) enrichable field keeps its value at exit — only falsy fields are
filled — and in every run, forced or not, a truthy `openlibrary_key` is never
overwritten. -/
theorem enrich_preserves_truthy_fields (b : Book) (force : Bool) (env : Env) :
    (force = false →
      (pyFalsyStr b.cover_url = false →
        (enrich_book b force env).book.cover_url = b.cover_url) ∧
      (pyFalsyStr b.summary = false →
        (enrich_book b force env).book.summary = b.summary) ∧
      (pyFalsyInt b.page_count = false →
        (enrich_book b force env).book.page_count = b.page_count) ∧
      (pyFalsyStr b.publisher = false →
        (enrich_book b force env).book.publisher = b.publisher)) ∧
    (pyFalsyStr b.openlibrary_key = false →
      (enrich_book b force env).book.openlibrary_key = b.openlibrary_key) := by
  constructor
  · rintro rfl
    refine ⟨?_, ?_, ?_, ?_⟩ <;> intro h <;>
      · simp only [enrich_book]
        split
        · rfl
        · simp [applied, h]
  · intro h
    simp only [enrich_book]
    split
    · rfl
    · simp [applied, keyCandidate_of_truthy_key _ _ h]

/-- Witness for `enrich_preserves_truthy_fields`: a run that does proceed to
the lookups (summary missing) preserves the truthy cover, page count,
publisher and stored key. -/
theorem enrich_preserves_truthy_fields_witness :
    (enrich_book (mkBook (some "c") none (some 412) (some "Ace") (some "/k"))
        false envCovers42).book.cover_url = some "c" ∧
    (enrich_book (mkBook (some "c") none (some 412) (some "Ace") (some "/k"))
        false envCovers42).book.page_count = some 412 ∧
    (enrich_book (mkBook (some "c") none (some 412) (some "Ace") (some "/k"))
        false envCovers42).book.publisher = some "Ace" ∧
    (enrich_book (mkBook (some "c") none (some 412) (some "Ace") (some "/k"))
        false envCovers42).book.openlibrary_key = some "/k" :=
  ⟨((enrich_preserves_truthy_fields _ false envCovers42).1 rfl).1 (by decide),
   ((enrich_preserves_truthy_fields _ false envCovers42).1 rfl).2.2.1 (by decide),
   ((enrich_preserves_truthy_fields _ false envCovers42).1 rfl).2.2.2 (by decide),
   (enrich_preserves_truthy_fields _ false envCovers42).2 (by decide)⟩

/-- C3: when page count is needed and both records supply one, the Primary's
value is written even when the Secondary's differs; and the Secondary's value
is written when the Primary record supplies none. -/
theorem page_count_primary_precedence :
    (∀ (b : Book) (force : Bool) (env : Env) (d g' : JVal) (p q : Int),
      (gather b force env).ol = some d →
      (gather b force env).google = some g' →
      needs_page_count b force = true →
      d.truthy = true →
      d.get "number_of_pages" = some (.jnum p) → p ≠ 0 →
      g'.get "pageCount" = some (.jnum q) →
      (enrich_book b force env).book.page_count = some p) ∧
    (∀ (b : Book) (force : Bool) (env : Env) (d g' : JVal) (q : Int),
      (gather b force env).ol = some d →
      (gather b force env).google = some g' →
      needs_page_count b force = true →
      d.get "number_of_pages" = none →
      g'.truthy = true →
      g'.get "pageCount" = some (.jnum q) → q ≠ 0 →
      (enrich_book b force env).book.page_count = some q) := by
  constructor
  · intro b force env d g' p q hol hg hnP hdt hpages hp _hq
    simp only [enrich_book]
    rw [if_neg (by rintro ⟨-, -, h3, -⟩; rw [hnP] at h3; cases h3)]
    simp [applied, hol, hg, hnP, pageCandidate, JVal.getD, hpages, hdt,
          hp, JVal.asInt]
  · intro b force env d g' q hol hg hnP hpages hgt hq hq0
    simp only [enrich_book]
    rw [if_neg (by rintro ⟨-, -, h3, -⟩; rw [hnP] at h3; cases h3)]
    simp [applied, hol, hg, hnP, pageCandidate, JVal.getD, hpages, hgt,
          hq, hq0, JVal.asInt]

/-- Witness for `page_count_primary_precedence`: with Primary reporting 412
pages and Secondary 999, the book gets 412; with Primary reporting none and
Secondary 300, the book gets 300. -/
theorem page_count_primary_precedence_witness :
    (enrich_book (mkBook none (some "s") none (some "Ace") (some "/k")) false
        ⟨.resp 200 (.jobj [("number_of_pages", .jnum 412)]), .reqError, .reqError,
         .resp 200 (.jobj [("items", .jarr [.jobj [("volumeInfo",
           .jobj [("pageCount", .jnum 999)])]])])⟩).book.page_count = some 412 ∧
    (enrich_book (mkBook none (some "s") none (some "Ace") (some "/k")) false
        ⟨.resp 200 (.jobj [("key", .jstr "/b")]), .reqError, .reqError,
         .resp 200 (.jobj [("items", .jarr [.jobj [("volumeInfo",
           .jobj [("pageCount", .jnum 300)])]])])⟩).book.page_count = some 300 :=
  ⟨page_count_primary_precedence.1 _ false _ _ _ 412 999 rfl rfl (by decide) rfl rfl
     (by decide) rfl,
   page_count_primary_precedence.2 _ false _ _ _ 300 rfl rfl (by decide) rfl rfl rfl
     (by decide)⟩

/-- C6: each adapter maps every failure — request/timeout error, JSON parse
error, or any non-200 status (404 included) — to `None`; no failure escapes to
the Coordinator. -/
theorem adapters_fail_to_null :
    (∀ (s : Nat) (body : JVal), s ≠ 200 →
      fetch_openlibrary_by_isbn (.resp s body) = none) ∧
    fetch_openlibrary_by_isbn .reqError = none ∧
    fetch_openlibrary_by_isbn .parseError = none ∧
    (∀ (s : Nat) (body : JVal), s ≠ 200 →
      fetch_openlibrary_by_title_author (.resp s body) = none) ∧
    fetch_openlibrary_by_title_author .reqError = none ∧
    fetch_openlibrary_by_title_author .parseError = none ∧
    (∀ (s : Nat) (body : JVal), s ≠ 200 →
      fetch_openlibrary_works (.resp s body) = none) ∧
    fetch_openlibrary_works .reqError = none ∧
    fetch_openlibrary_works .parseError = none ∧
    (∀ (isbn : Option String) (title : String) (author : Option String)
        (s : Nat) (body : JVal), s ≠ 200 →
      fetch_google_books isbn title author (.resp s body) = none) ∧
    (∀ (isbn : Option String) (title : String) (author : Option String),
      fetch_google_books isbn title author .reqError = none) ∧
    (∀ (isbn : Option String) (title : String) (author : Option String),
      fetch_google_books isbn title author .parseError = none) := by
  refine ⟨?_, rfl, rfl, ?_, rfl, rfl, ?_, rfl, rfl, ?_, ?_, ?_⟩
  · intro s body h
    unfold fetch_openlibrary_by_isbn
    split <;> simp_all
  · intro s body h
    unfold fetch_openlibrary_by_title_author
    split <;> simp_all
  · intro s body h
    unfold fetch_openlibrary_works
    split <;> simp_all
  · intro isbn title author s body h
    unfold fetch_google_books
    split
    · split <;> simp_all
    · rfl
  · intro isbn title author
    unfold fetch_google_books
    split <;> rfl
  · intro isbn title author
    unfold fetch_google_books
    split <;> rfl

/-- Witness for `adapters_fail_to_null` at status 500. -/
theorem adapters_fail_to_null_witness :
    fetch_openlibrary_by_isbn (.resp 500 .jnull) = none ∧
    fetch_openlibrary_by_title_author (.resp 500 .jnull) = none ∧
    fetch_openlibrary_works (.resp 500 .jnull) = none ∧
    fetch_google_books (some "9780441013593") "Dune" none (.resp 500 .jnull) = none :=
  ⟨adapters_fail_to_null.1 500 .jnull (by decide),
   adapters_fail_to_null.2.2.2.1 500 .jnull (by decide),
   adapters_fail_to_null.2.2.2.2.2.2.1 500 .jnull (by decide),
   adapters_fail_to_null.2.2.2.2.2.2.2.2.2.1 _ _ none 500 .jnull (by decide)⟩

/-- An environment where the Primary identity record exists but has no
publisher, while the Secondary volume info carries one. -/
def envPubGap : Env :=
  ⟨.resp 200 (.jobj [("key", .jstr "/books/OL1M")]), .reqError, .reqError,
   .resp 200 (.jobj [("items", .jarr [.jobj [("volumeInfo",
     .jobj [("publisher", .jstr "Acme")])]])])⟩

/-- C2 at its failing input: the Primary record was obtained without a
publisher and the Secondary record carries `publisher = "Acme"`, yet the
fused book's publisher stays `None` — enrich.py:258 guards the Secondary
branch with `elif google_data:` on the *record's presence*, so a present
Primary record suppresses the Secondary publisher entirely, contrary to the
first-non-null fusion the spec states (and the module docstring's
"Google Books (fallback)"). -/
theorem publisher_not_taken_from_secondary :
    (gather (mkBook none (some "s") (some 412) none (some "/k")) false envPubGap).ol =
      some (.jobj [("key", .jstr "/books/OL1M")]) ∧
    (gather (mkBook none (some "s") (some 412) none (some "/k")) false envPubGap).google =
      some (.jobj [("publisher", .jstr "Acme")]) ∧
    needs_publisher (mkBook none (some "s") (some 412) none (some "/k")) false = true ∧
    (enrich_book (mkBook none (some "s") (some 412) none (some "/k")) false
        envPubGap).book.publisher = none :=
  ⟨rfl, rfl, rfl, rfl⟩

theorem gather_numCalls_google (b : Book) (f : Bool) (env : Env)
    (h : needs_cover b f = true ∨ needs_summary b f = true) :
    1 ≤ numCalls (gather b f env).trace := by
  unfold gather
  dsimp only
  rw [if_pos h, numCalls_append, numCalls_append, numCalls_append]
  simp [callBlock, numCalls]
  omega

/-- C7: with `force=true`, `enrich_book` consults the adapters even when every
enrichable field is already non-null (at least one rate-governed adapter call
happens, the Secondary search), and any field for which the fusion finds a
value has its old value replaced by the found one. -/
theorem force_mode_refetches_and_overwrites (b : Book) (env : Env) :
    1 ≤ numCalls (enrich_book b true env).trace ∧
    (∀ c : String,
      coverCandidate true (gather b true env).ol (gather b true env).google = some c →
      (enrich_book b true env).book.cover_url = some c) ∧
    (∀ s : String,
      summaryCandidate true (gather b true env).olWorks (gather b true env).google = some s →
      (enrich_book b true env).book.summary = some s) ∧
    (∀ p : Int,
      pageCandidate true (gather b true env).ol (gather b true env).google = some p →
      (enrich_book b true env).book.page_count = some p) ∧
    (∀ s : String,
      publisherCandidate true (gather b true env).ol (gather b true env).google = some s →
      (enrich_book b true env).book.publisher = some s) := by
  have hne : ¬(needs_cover b true = false ∧ needs_summary b true = false ∧
      needs_page_count b true = false ∧ needs_publisher b true = false) := by simp
  refine ⟨?_, ?_, ?_, ?_, ?_⟩
  · simp only [enrich_book]
    rw [if_neg hne]
    exact gather_numCalls_google b true env (Or.inl (by simp))
  · intro c hc
    simp only [enrich_book]
    rw [if_neg hne]
    simp [applied, hc]
  · intro s hs
    simp only [enrich_book]
    rw [if_neg hne]
    simp [applied, hs]
  · intro p hp
    simp only [enrich_book]
    rw [if_neg hne]
    simp [applied, hp]
  · intro s hs
    simp only [enrich_book]
    rw [if_neg hne]
    simp [applied, hs]

/-- An environment offering fresh values for every field: identity record with
cover id 7, 500 pages, publisher `"NewPub"` and a key; works record with a
plain-string description. -/
def envFresh : Env :=
  ⟨.resp 200 (.jobj [("covers", .jarr [.jnum 7]), ("number_of_pages", .jnum 500),
     ("publishers", .jarr [.jstr "NewPub"]), ("key", .jstr "/books/OL9M")]),
   .reqError, .resp 200 (.jobj [("description", .jstr "fresh text")]), .reqError⟩

/-- Witness for `force_mode_refetches_and_overwrites`: a complete book is
re-fetched under force and every field is replaced by the fresh value. -/
theorem force_mode_refetches_and_overwrites_witness :
    1 ≤ numCalls (enrich_book (mkBook (some "oldc") (some "olds") (some 1)
        (some "OldPub") (some "/k")) true envFresh).trace ∧
    (enrich_book (mkBook (some "oldc") (some "olds") (some 1) (some "OldPub")
        (some "/k")) true envFresh).book.cover_url =
      some "https://covers.openlibrary.org/b/id/7-L.jpg" ∧
    (enrich_book (mkBook (some "oldc") (some "olds") (some 1) (some "OldPub")
        (some "/k")) true envFresh).book.summary = some "fresh text" ∧
    (enrich_book (mkBook (some "oldc") (some "olds") (some 1) (some "OldPub")
        (some "/k")) true envFresh).book.page_count = some 500 ∧
    (enrich_book (mkBook (some "oldc") (some "olds") (some 1) (some "OldPub")
        (some "/k")) true envFresh).book.publisher = some "NewPub" :=
  ⟨(force_mode_refetches_and_overwrites _ envFresh).1,
   (force_mode_refetches_and_overwrites _ envFresh).2.1 _ rfl,
   (force_mode_refetches_and_overwrites _ envFresh).2.2.1 _ rfl,
   (force_mode_refetches_and_overwrites _ envFresh).2.2.2.1 _ rfl,
   (force_mode_refetches_and_overwrites _ envFresh).2.2.2.2 _ rfl⟩

/-- An environment whose Primary identity lookup itself carries a description
object `{value: "X"}`, cover ids `[42]` and a key; the works lookup and the
Secondary fail. -/
def envIdentityDesc : Env :=
  ⟨.resp 200 (.jobj [("description", .jobj [("value", .jstr "X")]),
     ("covers", .jarr [.jnum 42]), ("key", .jstr "/books/OL1M")]),
   .reqError, .reqError, .reqError⟩

/-- C5 counterexample: the identity record's own `description = {value: "X"}`
never reaches the summary — `enrich.py` reads summaries only from the separate
works lookup (enrich.py:227..228), so when that second call fails the summary
stays null even though cover and key are taken from the identity record. -/
theorem identity_description_not_used_for_summary :
    (gather (mkBook none none none none none) false envIdentityDesc).ol =
      some (.jobj [("description", .jobj [("value", .jstr "X")]),
        ("covers", .jarr [.jnum 42]), ("key", .jstr "/books/OL1M")]) ∧
    (enrich_book (mkBook none none none none none) false envIdentityDesc).book.summary =
      none ∧
    (enrich_book (mkBook none none none none none) false envIdentityDesc).book.cover_url =
      some "https://covers.openlibrary.org/b/id/42-L.jpg" ∧
    (enrich_book (mkBook none none none none none) false envIdentityDesc).book.openlibrary_key =
      some "/books/OL1M" :=
  ⟨rfl, rfl, rfl, rfl⟩

/-- C5 (amended): for a book with only an ISBN13 (all enrichable fields and
the stored key null), when the Primary identity lookup returns a record with
cover ids `[42, …]` and a truthy key, *and the works lookup made with that key
returns a record whose description is the object `{value: x}`* (x truthy),
the book exits with `summary = x`, `cover_url` equal to the fixed template
applied to 42, and `openlibrary_key` set from the identity record's key. -/
theorem summary_from_works_lookup
    (b : Book) (env : Env) (R W : JVal) (ds : List (String × JVal))
    (k x : String) (rest : List JVal)
    (hc : b.cover_url = none) (hs : b.summary = none) (_hp : b.page_count = none)
    (_hpub : b.publisher = none) (hk0 : b.openlibrary_key = none)
    (hisbn : pyFalsyStr b.isbn13 = false)
    (h1 : env.olIsbn = .resp 200 R)
    (hR : R.truthy = true)
    (hw : R.get "works" = none)
    (hkey : R.get "key" = some (.jstr k)) (hkt : k.isEmpty = false)
    (hcov : R.get "covers" = some (.jarr (.jnum 42 :: rest)))
    (h3 : env.olWorks = .resp 200 W)
    (hWt : W.truthy = true)
    (hdesc : W.get "description" = some (.jobj ds))
    (hval : JVal.objGet ds "value" = some (.jstr x)) (hxt : x.isEmpty = false) :
    (enrich_book b false env).book.summary = some x ∧
    (enrich_book b false env).book.cover_url =
      some "https://covers.openlibrary.org/b/id/42-L.jpg" ∧
    (enrich_book b false env).book.openlibrary_key = some k := by
  have hnS : needs_summary b false = true := by simp [hs, pyFalsyStr]
  have hne : ¬(needs_cover b false = false ∧ needs_summary b false = false ∧
      needs_page_count b false = false ∧ needs_publisher b false = false) := by
    rintro ⟨-, h2', -⟩; rw [hnS] at h2'; cases h2'
  have hol : (gather b false env).ol = some R := by
    simp [gather, pyOr, hisbn, h1, fetch_openlibrary_by_isbn, pyTruthyRec, hR]
  have holW : (gather b false env).olWorks = some W := by
    simp [gather, pyOr, hisbn, h1, h3, fetch_openlibrary_by_isbn,
          fetch_openlibrary_works, pyTruthyRec, hR, worksKeyOf, hw, hkey, hkt, hnS]
  refine ⟨?_, ?_, ?_⟩
  · simp only [enrich_book]
    rw [if_neg hne]
    simp [applied, holW, summaryCandidate, hnS, extract_description, hdesc, hval,
          JVal.asStr, hWt, keepTruthy, hxt, pyFalsyStr]
  · simp only [enrich_book]
    rw [if_neg hne]
    have hurl : ("https://covers.openlibrary.org/b/id/" ++ toString (42 : Int) ++ "-L.jpg")
        = "https://covers.openlibrary.org/b/id/42-L.jpg" := by decide
    have hne' : ("https://covers.openlibrary.org/b/id/42-L.jpg").isEmpty = false := by decide
    simp [applied, hol, coverCandidate, needs_cover, hc, pyFalsyStr,
          extract_cover_url, JVal.getD, hcov, JVal.index0, coverUrlOf, JVal.pyStr,
          keepTruthy, hR, pyTruthyRec, hurl, hne']
  · simp only [enrich_book]
    rw [if_neg hne]
    simp [applied, hol, keyCandidate, hk0, pyFalsyStr, pyTruthyRec, hR, hkey, hkt,
          JVal.asStr]

/-- Witness for `summary_from_works_lookup` with the works lookup returning
the same record as the identity lookup. -/
theorem summary_from_works_lookup_witness :
    (enrich_book (mkBook none none none none none) false
        ⟨.resp 200 (.jobj [("description", .jobj [("value", .jstr "X")]),
           ("covers", .jarr [.jnum 42]), ("key", .jstr "/books/OL1M")]),
         .reqError,
         .resp 200 (.jobj [("description", .jobj [("value", .jstr "X")]),
           ("covers", .jarr [.jnum 42]), ("key", .jstr "/books/OL1M")]),
         .reqError⟩).book.summary = some "X" ∧
    (enrich_book (mkBook none none none none none) false
        ⟨.resp 200 (.jobj [("description", .jobj [("value", .jstr "X")]),
           ("covers", .jarr [.jnum 42]), ("key", .jstr "/books/OL1M")]),
         .reqError,
         .resp 200 (.jobj [("description", .jobj [("value", .jstr "X")]),
           ("covers", .jarr [.jnum 42]), ("key", .jstr "/books/OL1M")]),
         .reqError⟩).book.cover_url =
      some "https://covers.openlibrary.org/b/id/42-L.jpg" ∧
    (enrich_book (mkBook none none none none none) false
        ⟨.resp 200 (.jobj [("description", .jobj [("value", .jstr "X")]),
           ("covers", .jarr [.jnum 42]), ("key", .jstr "/books/OL1M")]),
         .reqError,
         .resp 200 (.jobj [("description", .jobj [("value", .jstr "X")]),
           ("covers", .jarr [.jnum 42]), ("key", .jstr "/books/OL1M")]),
         .reqError⟩).book.openlibrary_key = some "/books/OL1M" :=
  summary_from_works_lookup _ _ _ _ _ "/books/OL1M" "X" [] rfl rfl rfl rfl rfl
    (by decide) rfl (by decide) rfl rfl (by decide) rfl rfl (by decide) rfl rfl
    (by decide)

theorem keepTruthy_eq_some (o : Option String) (s : String)
    (h : keepTruthy o = some s) : s.isEmpty = false := by
  cases o with
  | none => exact absurd h (by simp [keepTruthy])
  | some t =>
      by_cases ht : t.isEmpty = true
      · simp [keepTruthy, ht] at h
      · simp [keepTruthy, ht] at h
        rw [← h]
        exact Bool.not_eq_true _ ▸ ht

theorem pageValue_ne_zero (e : JVal) (key : String) (p : Int)
    (hg : (e.getD key .jnull).truthy = true)
    (h : (e.get key).bind JVal.asInt = some p) : p ≠ 0 := by
  cases hk : e.get key with
  | none => rw [hk] at h; simp at h
  | some v =>
      rw [hk] at h
      unfold JVal.getD at hg
      rw [hk] at hg
      cases v <;> simp [JVal.asInt] at h
      case jnum n =>
        rw [← h]
        simpa using hg

/-- An environment where the Primary record's publisher list holds only the
empty string while the Secondary volume info carries `"Acme"`. -/
def envEmptyPub : Env :=
  ⟨.resp 200 (.jobj [("publishers", .jarr [.jstr ""])]), .reqError, .reqError,
   .resp 200 (.jobj [("items", .jarr [.jobj [("volumeInfo",
     .jobj [("publisher", .jstr "Acme")])]])])⟩

/-- C10 counterexample: a falsy Primary publisher (the empty string) is indeed
never written and does not mark the book updated, but it does **not** allow the
fall back to the Secondary's `"Acme"` — the Secondary publisher branch is an
`elif` on the Primary record's presence (enrich.py:258), so the book's
publisher stays `None` where the claim requires `"Acme"`. -/
theorem falsy_publisher_blocks_secondary_fallback :
    (gather (mkBook none (some "s") (some 7) none (some "/k")) false envEmptyPub).ol =
      some (.jobj [("publishers", .jarr [.jstr ""])]) ∧
    (gather (mkBook none (some "s") (some 7) none (some "/k")) false envEmptyPub).google =
      some (.jobj [("publisher", .jstr "Acme")]) ∧
    needs_publisher (mkBook none (some "s") (some 7) none (some "/k")) false = true ∧
    (enrich_book (mkBook none (some "s") (some 7) none (some "/k")) false
        envEmptyPub).book.publisher = none ∧
    (enrich_book (mkBook none (some "s") (some 7) none (some "/k")) false
        envEmptyPub).updated = false :=
  ⟨rfl, rfl, rfl, rfl, rfl⟩

/-- C10 (amended): falsy provider values — a page count of 0, an empty-string
description, cover URL or publisher — are treated as absent: every value
actually written is truthy, a run in which nothing truthy is found leaves the
book, the `updated` flag and the store untouched, and for page count and
summary a falsy Primary value lets the Secondary value through; for publisher,
however, no Secondary fallback happens while a Primary record is present
(see `falsy_publisher_blocks_secondary_fallback`). -/
theorem falsy_provider_values_treated_absent :
    (∀ (nC : Bool) (ol g : Option JVal) (c : String),
      coverCandidate nC ol g = some c → c.isEmpty = false) ∧
    (∀ (nS : Bool) (olW g : Option JVal) (s : String),
      summaryCandidate nS olW g = some s → s.isEmpty = false) ∧
    (∀ (nP : Bool) (ol g : Option JVal) (p : Int),
      pageCandidate nP ol g = some p → p ≠ 0) ∧
    (∀ (nPub : Bool) (ol g : Option JVal) (s : String),
      publisherCandidate nPub ol g = some s → s.isEmpty = false) ∧
    (∀ (b : Book) (ol : Option JVal) (k : String),
      keyCandidate b ol = some k → k.isEmpty = false) ∧
    (∀ (b : Book) (force : Bool) (env : Env),
      coverCandidate (needs_cover b force) (gather b force env).ol
        (gather b force env).google = none →
      summaryCandidate (needs_summary b force) (gather b force env).olWorks
        (gather b force env).google = none →
      pageCandidate (needs_page_count b force) (gather b force env).ol
        (gather b force env).google = none →
      publisherCandidate (needs_publisher b force) (gather b force env).ol
        (gather b force env).google = none →
      keyCandidate b (gather b force env).ol = none →
      (enrich_book b force env).book = b ∧
      (enrich_book b force env).updated = false ∧
      (enrich_book b force env).saved = false) ∧
    (∀ (b : Book) (force : Bool) (env : Env) (d g' : JVal) (q : Int),
      (gather b force env).ol = some d →
      (gather b force env).google = some g' →
      needs_page_count b force = true →
      d.get "number_of_pages" = some (.jnum 0) →
      g'.truthy = true → g'.get "pageCount" = some (.jnum q) → q ≠ 0 →
      (enrich_book b force env).book.page_count = some q) ∧
    (∀ (b : Book) (force : Bool) (env : Env) (w g' : JVal) (s' : String),
      (gather b force env).olWorks = some w →
      (gather b force env).google = some g' →
      needs_summary b force = true →
      w.truthy = true →
      extract_description w .openlibrary = some "" →
      g'.truthy = true →
      extract_description g' .google = some s' → s'.isEmpty = false →
      (enrich_book b force env).book.summary = some s') := by
  refine ⟨?_, ?_, ?_, ?_, ?_, ?_, ?_, ?_⟩
  · intro nC ol g c h
    cases nC with
    | false => simp at h
    | true => exact keepTruthy_eq_some _ _ (by simpa [coverCandidate] using h)
  · intro nS olW g s h
    cases nS with
    | false => simp at h
    | true => exact keepTruthy_eq_some _ _ (by simpa [summaryCandidate] using h)
  · intro nP ol g p h
    cases nP with
    | false => simp at h
    | true =>
        simp only [pageCandidate, if_true] at h
        cases ol with
        | some d =>
            dsimp only at h
            split at h
            · next hguard => exact pageValue_ne_zero d _ p hguard.2 h
            · cases g with
              | none => simp at h
              | some e =>
                  dsimp only at h
                  split at h
                  · next hguard => exact pageValue_ne_zero e _ p hguard.2 h
                  · simp at h
        | none =>
            dsimp only at h
            cases g with
            | none => simp at h
            | some e =>
                dsimp only at h
                split at h
                · next hguard => exact pageValue_ne_zero e _ p hguard.2 h
                · simp at h
  · intro nPub ol g s h
    cases nPub with
    | false => simp at h
    | true => exact keepTruthy_eq_some _ _ (by simpa [publisherCandidate] using h)
  · intro b ol k h
    unfold keyCandidate at h
    split at h
    · cases ol with
      | none => simp at h
      | some d =>
          dsimp only at h
          cases hk : d.get "key" with
          | none => rw [hk] at h; simp at h
          | some v =>
              rw [hk] at h
              dsimp only at h
              by_cases hv : v.truthy = true
              · rw [if_pos hv] at h
                cases v <;> simp [JVal.asStr] at h
                subst h
                simpa using hv
              · rw [if_neg hv] at h
                simp at h
    · simp at h
  · intro b force env h1 h2 h3 h4 h5
    simp only [enrich_book]
    split
    · exact ⟨rfl, rfl, rfl⟩
    · refine ⟨?_, ?_, ?_⟩
      · simp only [applied, h1, h2, h3, h4, h5, overwriteWith_none]
      · simp [anyFound, h1, h2, h3, h4, h5]
      · simp [anyFound, h1, h2, h3, h4, h5]
  · intro b force env d g' q hol hg hnP hzero hgt hq hq0
    simp only [enrich_book]
    rw [if_neg (by rintro ⟨-, -, h3', -⟩; rw [hnP] at h3'; cases h3')]
    simp [applied, hol, hg, hnP, pageCandidate, JVal.getD, hzero, hgt, hq, hq0,
          JVal.asInt]
  · intro b force env w g' s' holW hg hnS hwt hext hgt hext' hst
    simp only [enrich_book]
    rw [if_neg (by rintro ⟨-, h2', -⟩; rw [hnS] at h2'; cases h2')]
    have hempty : ("" : String).isEmpty = true := rfl
    simp [applied, holW, hg, hnS, summaryCandidate, hwt, hext, hgt, hext',
          keepTruthy, hst, pyFalsyStr, pyTruthyRec, hempty]

/-- A book missing its cover and page count (so the Secondary is consulted). -/
def bookPageGap : Book := mkBook none (some "s") none (some "Ace") (some "/k")

/-- Primary record with a page count of 0; Secondary reports 300 pages. -/
def envZeroPages : Env :=
  ⟨.resp 200 (.jobj [("number_of_pages", .jnum 0), ("key", .jstr "/b")]),
   .reqError, .reqError,
   .resp 200 (.jobj [("items", .jarr [.jobj [("volumeInfo",
     .jobj [("pageCount", .jnum 300)])]])])⟩

/-- Primary record with a page count of 0 and nothing else; Secondary fails. -/
def envZeroPagesOnly : Env :=
  ⟨.resp 200 (.jobj [("number_of_pages", .jnum 0), ("key", .jstr "/b")]),
   .reqError, .reqError, .reqError⟩

/-- Witness for `falsy_provider_values_treated_absent`: a Primary page count
of 0 falls through to the Secondary's 300; when only falsy values are on
offer, nothing is written and the book is not marked updated. -/
theorem falsy_provider_values_treated_absent_witness :
    (enrich_book bookPageGap false envZeroPages).book.page_count = some 300 ∧
    (enrich_book bookPageGap false envZeroPagesOnly).book = bookPageGap ∧
    (enrich_book bookPageGap false envZeroPagesOnly).updated = false :=
  ⟨falsy_provider_values_treated_absent.2.2.2.2.2.2.1 bookPageGap false envZeroPages
     _ _ 300 rfl rfl (by decide) rfl (by decide) rfl (by decide),
   (falsy_provider_values_treated_absent.2.2.2.2.2.1 bookPageGap false envZeroPagesOnly
     rfl rfl rfl rfl rfl).1,
   (falsy_provider_values_treated_absent.2.2.2.2.2.1 bookPageGap false envZeroPagesOnly
     rfl rfl rfl rfl rfl).2.1⟩

end BookCatalog
